import Mathlib

/-!
Verification development for the apio package utilities
(`apio/pkg_util.py`): the environment-mutation composer/applier
(`_get_env_mutations_for_packages`, `_apply_env_mutations`,
`set_env_for_packages`) and the installed-package verifier
(`check_required_packages`, `_check_required_package`,
`_version_matches`).

The Python code is shallowly embedded: `os.environ` becomes an ordered
association list, `sys.exit(1)` / raised exceptions become explicit
result constructors, and the process-wide applied-once flag becomes a
field of an explicit process state threaded through the entry point.
The third-party `semantic_version` library (not part of this
repository) is modelled from its documented grammar where the code
depends on it.
-/

set_option autoImplicit false

deriving instance DecidableEq for Except

namespace Apio

/-! ## Ambient environment model

`os.environ` is modelled as an ordered association list from variable
names to values.  Assignment (`os.environ[k] = v`) overwrites the first
binding of `k` in place, or appends a new binding at the end, which
matches Python dict update semantics (insertion order preserved,
overwrite keeps the position). -/

/-- The ambient process environment (`os.environ`). -/
abbrev Env := List (String × String)

/-- Lookup of a variable in the environment (`os.environ.get`). -/
def envGet : Env → String → Option String
  | [], _ => none
  | (k', v) :: rest, k => if k' = k then some v else envGet rest k

/-- Assignment `os.environ[k] = v`: overwrite the existing binding in
place, or append a fresh binding at the end. -/
def envSet : Env → String → String → Env
  | [], k, v => [(k, v)]
  | (k', v') :: rest, k, v =>
    if k' = k then (k, v) :: rest else (k', v') :: envSet rest k v

/-! ## Data model of `pkg_util.py` -/

/-- `EnvMutations` dataclass: mutations to the system env. -/
structure EnvMutations where
  /-- PATH items to add. -/
  paths : List String
  /-- Vars name/value pairs. -/
  vars : List (String × String)
  deriving DecidableEq

/-- The `env` section of a package config in the resources JSON:
an optional `path` list (default `[]`) and an optional ordered `vars`
mapping (default `{}`). -/
structure PackageEnv where
  path : List String
  vars : List (String × String)
  deriving DecidableEq

/-- One entry of `resources.platform_packages`: a JSON object that may
or may not contain an `env` section (`none` models a config in which
the `"env"` key is absent). -/
structure PackageConfig where
  env : Option PackageEnv
  deriving DecidableEq

/-- One entry of `Profile().packages`: a JSON object that may or may
not contain a `"version"` key. -/
structure PackageInfo where
  version : Option String
  deriving DecidableEq

/-- The slice of the apio `Resources` object used by `pkg_util.py`:
the ordered platform-package registry, the full known-package name
catalog, the `distribution["packages"]` constraint mapping, and the
package-directory resolver. -/
structure Resources where
  platform_packages : List (String × PackageConfig)
  all_packages : List String
  distribution_packages : List (String × String)
  get_package_dir : String → Option String

/-! ## `_get_env_mutations_for_packages` -/

/-- The loop body of `_get_env_mutations_for_packages`: iterate the
platform packages in registry order, require (`assert`) the `env`
section of each, and extend the accumulated `paths` and `vars` lists.
A missing `env` section aborts with an `AssertionError`. -/
def envMutationsLoop : List (String × PackageConfig) → EnvMutations →
    Except String EnvMutations
  | [], acc => .ok acc
  | (_, cfg) :: rest, acc =>
    match cfg.env with
    | none => .error "AssertionError: env section missing"
    | some pe =>
      envMutationsLoop rest
        { paths := acc.paths ++ pe.path, vars := acc.vars ++ pe.vars }

/-- `_get_env_mutations_for_packages`: collects the env mutation for
each of the defined packages, in the order they are defined. -/
def getEnvMutationsForPackages (res : Resources) :
    Except String EnvMutations :=
  envMutationsLoop res.platform_packages { paths := [], vars := [] }

/-- Spec-side expression `concat(p1.paths, ..., pn.paths)`: the
concatenation, in registry order, of the declared path fragments of
the platform packages (an absent `env` section contributes nothing;
it only matters under the hypothesis that composition succeeded). -/
def collectedPaths : List (String × PackageConfig) → List String
  | [] => []
  | pc :: rest =>
    (match pc.2.env with | none => [] | some pe => pe.path) ++
      collectedPaths rest

/-! ## `_apply_env_mutations` -/

/-- The vars loop of `_apply_env_mutations`: apply the (name, value)
pairs in collected order by environment assignment. -/
def applyVars (vars : List (String × String)) (env : Env) : Env :=
  vars.foldl (fun e p => envSet e p.1 p.2) env

/-- `_apply_env_mutations`: reads `os.environ["PATH"]` (a `KeyError`
if PATH is unset — modelled as an error, raised before any mutation),
sets PATH to `os.pathsep.join(mutations.paths + [old_val])`, then
applies the vars mutations in order.  `sep` is `os.pathsep`. -/
def applyEnvMutations (sep : String) (m : EnvMutations) (env : Env) :
    Except String Env :=
  match envGet env "PATH" with
  | none => .error "KeyError: PATH"
  | some oldVal =>
    let newVal := String.intercalate sep (m.paths ++ [oldVal])
    .ok (applyVars m.vars (envSet env "PATH" newVal))

/-! ## `set_env_for_packages` and the applied-once flag -/

/-- The process state seen by `set_env_for_packages`: the ambient
environment and the module-level `__ENV_ALREADY_SET_FLAG`. -/
structure PState where
  env : Env
  envAlreadySetFlag : Bool
  deriving DecidableEq

/-- `set_env_for_packages`: collects the mutations (propagating the
`AssertionError` of a malformed registry), then, only when the
applied-once flag is still false, applies them and sets the flag.
An error carries the process state at the raise point: the
`KeyError` of `_apply_env_mutations` fires before any mutation, so
the state is unchanged and the flag in particular stays false.
The `verbose` dump and the `click` output have no effect on the
environment and are not modelled. -/
def setEnvForPackages (sep : String) (res : Resources) (s : PState) :
    Except (String × PState) PState :=
  match getEnvMutationsForPackages res with
  | .error e => .error (e, s)
  | .ok mutations =>
    if s.envAlreadySetFlag then
      .ok s
    else
      match applyEnvMutations sep mutations s.env with
      | .error e => .error (e, s)
      | .ok env' => .ok { env := env', envAlreadySetFlag := true }

/-! ## Model of the `semantic_version` library

Modelled from the `semantic_version` Python library (python-semanticversion, a
dependency of this repository, not part of its sources):

* `Version(s)` accepts exactly `major.minor.patch` with optional
  `-prerelease` and `+build` suffixes, each component a dot-separated
  list of non-empty alphanumeric-or-hyphen identifiers, numeric
  identifiers without leading zeros; anything else raises
  `ValueError`.  Build metadata is validated and then discarded (it
  does not participate in precedence).
* `SimpleSpec(s)` splits the expression on commas; every block must
  be `*` or a comparison operator (`>=`, `<=`, `>`, `<`, `==`, `=`,
  `!=`, or no operator meaning equality) followed by a version.  An
  empty block — in particular the empty expression — raises
  `ValueError`.  (The library additionally accepts `^`/`~` blocks and
  partial versions; no constraint relevant here uses them, and the
  model conservatively leaves them out, so every spec the model parses
  is parsed identically by the library.)
* Matching follows natural semantic-version precedence, prerelease
  identifiers compared pairwise (numeric before alphanumeric). -/

/-- A parsed semantic version (build metadata already discarded). -/
structure SemVer where
  major : Nat
  minor : Nat
  patch : Nat
  prerelease : List String
  deriving DecidableEq

/-- Split a character list on a separator character; the empty list
yields one empty group, like Python's `str.split` with an explicit
separator. -/
def splitOnChar (sep : Char) : List Char → List (List Char)
  | [] => [[]]
  | c :: cs =>
    let r := splitOnChar sep cs
    if c = sep then [] :: r
    else
      match r with
      | [] => [[c]]
      | g :: gs => (c :: g) :: gs

/-- Break a character list at the first occurrence of `sep`:
the part before it, and (when present) the part after it. -/
def breakOnChar (sep : Char) : List Char → List Char × Option (List Char)
  | [] => ([], none)
  | c :: cs =>
    if c = sep then ([], some cs)
    else
      let r := breakOnChar sep cs
      (c :: r.1, r.2)

/-- A numeric version component: non-empty, all digits, no leading
zero (except `0` itself). -/
def isNumericIdent (cs : List Char) : Bool :=
  !cs.isEmpty && cs.all Char.isDigit &&
    (cs = ['0'] || cs.head? ≠ some '0')

/-- A prerelease/build identifier: non-empty, alphanumeric or hyphen,
and when fully numeric, no leading zero. -/
def isVersionIdent (cs : List Char) : Bool :=
  !cs.isEmpty && cs.all (fun c => c.isAlphanum || c = '-') &&
    (!cs.all Char.isDigit || cs = ['0'] || cs.head? ≠ some '0')

/-- Value of a digit string. -/
def digitsToNat (cs : List Char) : Nat :=
  cs.foldl (fun n c => 10 * n + (c.toNat - '0'.toNat)) 0

/-- Parse `major.minor.patch` (three numeric components). -/
def semverCoreParse (cs : List Char) : Option (Nat × Nat × Nat) :=
  match splitOnChar '.' cs with
  | [ma, mi, pa] =>
    if isNumericIdent ma && isNumericIdent mi && isNumericIdent pa then
      some (digitsToNat ma, digitsToNat mi, digitsToNat pa)
    else none
  | _ => none

/-- Parse a dot-separated identifier list (prerelease or build). -/
def versionIdentsParse (cs : List Char) : Option (List String) :=
  let parts := splitOnChar '.' cs
  if parts.all isVersionIdent then
    some (parts.map fun p => String.mk p)
  else none

/-- `semantic_version.Version` parsing on characters: core version,
optional `-prerelease`, optional `+build` (validated, discarded). -/
def semverParseChars (cs : List Char) : Option SemVer :=
  match splitOnChar '+' cs with
  | [core] => semverParseNoBuild core
  | [core, build] =>
    match versionIdentsParse build with
    | none => none
    | some _ => semverParseNoBuild core
  | _ => none
where
  semverParseNoBuild (core : List Char) : Option SemVer :=
    match breakOnChar '-' core with
    | (nums, none) =>
      (semverCoreParse nums).map fun t =>
        { major := t.1, minor := t.2.1, patch := t.2.2, prerelease := [] }
    | (nums, some pre) =>
      match semverCoreParse nums, versionIdentsParse pre with
      | some t, some ids =>
        some { major := t.1, minor := t.2.1, patch := t.2.2,
               prerelease := ids }
      | _, _ => none

/-- `semantic_version.Version(s)`: `some` on success, `none` where the
library raises `ValueError`. -/
def semverParse (s : String) : Option SemVer :=
  semverParseChars s.data

/-- Comparison operators of a simple-spec block. -/
inductive SpecOp where
  | ge | le | gt | lt | eq | ne
  deriving DecidableEq

/-- One comma-separated block of a `SimpleSpec`. -/
inductive SpecClause where
  | anyVersion
  | cmp (op : SpecOp) (target : SemVer)
  deriving DecidableEq

/-- A parsed `semantic_version.SimpleSpec`: the conjunction of its
comma-separated blocks. -/
structure SimpleSpec where
  clauses : List SpecClause
  deriving DecidableEq

/-- Parse one block: `*`, or an optional comparison operator followed
by a version (a bare version means equality). -/
def parseBlockChars : List Char → Option SpecClause
  | ['*'] => some .anyVersion
  | '>' :: '=' :: rest => (semverParseChars rest).map (.cmp .ge)
  | '<' :: '=' :: rest => (semverParseChars rest).map (.cmp .le)
  | '=' :: '=' :: rest => (semverParseChars rest).map (.cmp .eq)
  | '!' :: '=' :: rest => (semverParseChars rest).map (.cmp .ne)
  | '>' :: rest => (semverParseChars rest).map (.cmp .gt)
  | '<' :: rest => (semverParseChars rest).map (.cmp .lt)
  | '=' :: rest => (semverParseChars rest).map (.cmp .eq)
  | rest => (semverParseChars rest).map (.cmp .eq)

/-- `semantic_version.SimpleSpec(s)`: split on commas and parse every
block; `none` where the library raises `ValueError` — in particular
the empty expression yields one empty block, which is invalid. -/
def simpleSpecParse (s : String) : Option SimpleSpec :=
  ((splitOnChar ',' s.data).mapM parseBlockChars).map SimpleSpec.mk

/-- Semantic-version precedence on prerelease identifiers: numeric
identifiers compare numerically and precede alphanumeric ones;
alphanumeric identifiers compare as ASCII strings. -/
def identLt (a b : String) : Bool :=
  if isNumericIdent a.data then
    if isNumericIdent b.data then
      digitsToNat a.data < digitsToNat b.data
    else true
  else if isNumericIdent b.data then false
  else decide (a < b)

/-- Prerelease list precedence: pairwise identifier comparison, a
strict prefix preceding its extensions. -/
def preLt : List String → List String → Bool
  | [], [] => false
  | [], _ :: _ => true
  | _ :: _, [] => false
  | a :: as, b :: bs => if a = b then preLt as bs else identLt a b

/-- Strict precedence on `major.minor.patch`. -/
def semverCoreLt (v w : SemVer) : Bool :=
  v.major < w.major ||
    (v.major = w.major &&
      (v.minor < w.minor ||
        (v.minor = w.minor && v.patch < w.patch)))

/-- Strict semantic-version precedence: core first; at equal core a
prerelease version precedes the plain release, and two prereleases
compare by `preLt`. -/
def semverLt (v w : SemVer) : Bool :=
  if semverCoreLt v w then true
  else if semverCoreLt w v then false
  else
    match v.prerelease, w.prerelease with
    | [], _ => false
    | _ :: _, [] => true
    | p, q => preLt p q

/-- Whether version `v` satisfies one clause. -/
def clauseMatches (v : SemVer) : SpecClause → Bool
  | .anyVersion => true
  | .cmp .ge t => !semverLt v t
  | .cmp .le t => !semverLt t v
  | .cmp .gt t => semverLt t v
  | .cmp .lt t => semverLt v t
  | .cmp .eq t => v = t
  | .cmp .ne t => v ≠ t

/-- `version in spec`: the version satisfies every block. -/
def specMatches (spec : SimpleSpec) (v : SemVer) : Bool :=
  spec.clauses.all (clauseMatches v)

/-! ## `_version_matches` and the verifier -/

/-- `_version_matches`: builds the `SimpleSpec` (an invalid spec
expression raises `ValueError`, NOT caught — modelled as `.error`),
then parses the current version inside a `try` whose `ValueError`
handler returns `False`, and otherwise tests membership. -/
def versionMatches (currentVersion specVersion : String) :
    Except String Bool :=
  match simpleSpecParse specVersion with
  | none => .error "ValueError: invalid simple block"
  | some spec =>
    match semverParse currentVersion with
    | none => .ok false
    | some v => .ok (specMatches spec v)

/-- The three user-level failures of `_check_required_package`; each
is printed with the install-instructions hint and then `sys.exit(1)`. -/
inductive UserErrorKind where
  | notInstalled
  | versionMismatch (installed spec : String)
  | directoryMissing
  deriving DecidableEq

/-- Outcome of the verifier: normal return, a raised `RuntimeError`
(internal error), a printed user error followed by `sys.exit(1)`, or
an uncaught `ValueError` escaping `_version_matches`. -/
inductive CheckResult where
  | ok
  | runtimeError (msg : String)
  | userError (pkg : String) (kind : UserErrorKind)
  | valueError (msg : String)
  deriving DecidableEq

/-- `_check_required_package`: case 1 not installed; case 2 version
does not match the requirement (an uncaught `ValueError` from
`_version_matches` propagates); case 3 the package's directory is
resolved but does not exist on disk.  `isDir` models
`Path.is_dir()`. -/
def checkRequiredPackage (isDir : String → Bool) (packageName : String)
    (currentVersion : Option String) (specVersion : String)
    (res : Resources) : CheckResult :=
  match currentVersion with
  | none => .userError packageName .notInstalled
  | some cv =>
    match versionMatches cv specVersion with
    | .error e => .valueError e
    | .ok versionOk =>
      if !versionOk then
        .userError packageName (.versionMismatch cv specVersion)
      else
        match res.get_package_dir packageName with
        | none => .ok
        | some dir =>
          if !isDir dir then .userError packageName .directoryMissing
          else .ok

/-- One iteration of the `check_required_packages` loop for a single
required name: `none` means the loop continues with the next name (the
name is skipped as not platform-applicable, or its check passed);
`some r` means the whole call stops with result `r` (the
`RuntimeError` for a name outside `all_packages`, or a failure of
`_check_required_package`). -/
def checkPackagesStep (isDir : String → Bool) (res : Resources)
    (installed : List (String × PackageInfo)) (name : String) :
    Option CheckResult :=
  if ¬ name ∈ res.all_packages then
    some (.runtimeError ("Unknown package named [" ++ name ++ "]"))
  else if ¬ name ∈ res.platform_packages.map Prod.fst then
    none
  else
    let currentVersion :=
      match installed.lookup name with
      | none => none
      | some info => info.version
    let specVersion := (res.distribution_packages.lookup name).getD ""
    match checkRequiredPackage isDir name currentVersion specVersion res with
    | .ok => none
    | r => some r

/-- `check_required_packages`: process the required names in caller
order; the first iteration that stops determines the result. -/
def checkRequiredPackages (isDir : String → Bool)
    (requiredPackagesNames : List String) (res : Resources)
    (installed : List (String × PackageInfo)) : CheckResult :=
  match requiredPackagesNames with
  | [] => .ok
  | name :: rest =>
    match checkPackagesStep isDir res installed name with
    | some r => r
    | none => checkRequiredPackages isDir rest res installed

/-! ## Concrete fixtures used by witnesses and counterexamples -/

/-- A registry with two platform packages, each contributing one PATH
fragment, declared in the order `p1`, `p2`. -/
def resTwoPaths : Resources where
  platform_packages :=
    [("p1", { env := some { path := ["dirA"], vars := [] } }),
     ("p2", { env := some { path := ["dirB"], vars := [] } })]
  all_packages := ["p1", "p2"]
  distribution_packages := []
  get_package_dir := fun _ => none

/-- A registry with two platform packages that both declare the
variable `X`, with different values, `p1` before `p2`. -/
def resVarOverride : Resources where
  platform_packages :=
    [("p1", { env := some { path := [], vars := [("X", "one")] } }),
     ("p2", { env := some { path := [], vars := [("X", "two")] } })]
  all_packages := ["p1", "p2"]
  distribution_packages := []
  get_package_dir := fun _ => none

/-- A registry in which the platform package `broken` lacks the `env`
section of its config. -/
def resMissingEnv : Resources where
  platform_packages := [("broken", { env := none })]
  all_packages := ["broken"]
  distribution_packages := []
  get_package_dir := fun _ => none

/-- A registry whose only platform package `pkg` has no entry in the
distribution constraint mapping, so the constraint lookup falls back
to the empty-string default. -/
def resEmptyConstraint : Resources where
  platform_packages := [("pkg", { env := some { path := [], vars := [] } })]
  all_packages := ["pkg"]
  distribution_packages := []
  get_package_dir := fun _ => none

/-- A registry with two required-checkable packages `a` and `b`, both
version-constrained, neither installed in the fixture scenarios. -/
def resTwoRequired : Resources where
  platform_packages :=
    [("a", { env := some { path := [], vars := [] } }),
     ("b", { env := some { path := [], vars := [] } })]
  all_packages := ["a", "b"]
  distribution_packages := [("a", ">=1.0.0"), ("b", ">=1.0.0")]
  get_package_dir := fun _ => none

/-- A registry knowing only package `a`, which is not applicable to
the current platform (so it is skipped by the verifier). -/
def resSkipOnly : Resources where
  platform_packages := []
  all_packages := ["a"]
  distribution_packages := []
  get_package_dir := fun _ => none

/-- A registry whose platform package `pkg` resolves to an
installation directory. -/
def resDirCheck : Resources where
  platform_packages := [("pkg", { env := some { path := [], vars := [] } })]
  all_packages := ["pkg"]
  distribution_packages := [("pkg", ">=1.0.0")]
  get_package_dir := fun n => if n = "pkg" then some "/packages/pkg" else none

/-! ## Helper lemmas about the environment model -/

/-- Reading back the variable just assigned yields the new value. -/
theorem envGet_envSet_self (env : Env) (k v : String) :
    envGet (envSet env k v) k = some v := by
  induction env with
  | nil => simp [envSet, envGet]
  | cons p rest ih =>
    obtain ⟨k', v'⟩ := p
    by_cases h : k' = k
    · simp [envSet, h, envGet]
    · simp [envSet, h, envGet, ih]

/-- Assignment to one variable leaves the others unchanged. -/
theorem envGet_envSet_ne (env : Env) (k v x : String) (h : x ≠ k) :
    envGet (envSet env k v) x = envGet env x := by
  have hk : ¬ k = x := fun hh => h hh.symm
  induction env with
  | nil => simp [envSet, envGet, hk]
  | cons p rest ih =>
    obtain ⟨k', v'⟩ := p
    by_cases hke : k' = k
    · subst hke
      simp [envSet, envGet, hk]
    · simp [envSet, hke, envGet, ih]

/-- Applying a vars list decomposes over list append. -/
theorem applyVars_append (a b : List (String × String)) (env : Env) :
    applyVars (a ++ b) env = applyVars b (applyVars a env) := by
  simp [applyVars, List.foldl_append]

/-- Applying a cons: assign the head, then the rest. -/
theorem applyVars_cons (k v : String) (l : List (String × String))
    (env : Env) :
    applyVars ((k, v) :: l) env = applyVars l (envSet env k v) := rfl

/-- A vars list that never assigns `x` leaves `x` unchanged. -/
theorem envGet_applyVars_of_notMem (l : List (String × String))
    (env : Env) (x : String) (h : x ∉ l.map Prod.fst) :
    envGet (applyVars l env) x = envGet env x := by
  induction l generalizing env with
  | nil => rfl
  | cons p rest ih =>
    obtain ⟨k, v⟩ := p
    simp only [List.map_cons, List.mem_cons] at h
    push_neg at h
    rw [applyVars_cons, ih _ h.2, envGet_envSet_ne _ _ _ _ h.1]

/-- After the assignment of `x` to `v` no later entry assigns `x`,
so the final environment holds `v` for `x` (last write wins). -/
theorem envGet_applyVars_last (l3 : List (String × String)) (env : Env)
    (x v : String) (h3 : x ∉ l3.map Prod.fst) :
    envGet (applyVars ((x, v) :: l3) env) x = some v := by
  rw [applyVars_cons, envGet_applyVars_of_notMem _ _ _ h3,
    envGet_envSet_self]

/-! ## Helper lemmas about composition and verification -/

/-- When the mutation-collection loop succeeds, the collected paths
are the accumulator followed by the concatenation, in registry order,
of the declared path fragments. -/
theorem envMutationsLoop_paths (l : List (String × PackageConfig)) :
    ∀ acc m, envMutationsLoop l acc = .ok m →
      m.paths = acc.paths ++ collectedPaths l := by
  induction l with
  | nil =>
    intro acc m h
    simp only [envMutationsLoop] at h
    cases h
    simp [collectedPaths]
  | cons p rest ih =>
    intro acc m h
    obtain ⟨nm, cfg⟩ := p
    cases henv : cfg.env with
    | none => simp [envMutationsLoop, henv] at h
    | some pe =>
      simp only [envMutationsLoop, henv] at h
      rw [ih _ _ h]
      simp [collectedPaths, henv]

/-- A platform package whose config lacks the `env` section makes the
mutation-collection loop abort with the assertion error, whatever the
accumulator. -/
theorem envMutationsLoop_error_of_missing
    (l : List (String × PackageConfig)) (name : String)
    (cfg : PackageConfig) (hmem : (name, cfg) ∈ l)
    (henv : cfg.env = none) :
    ∀ acc, envMutationsLoop l acc
      = .error "AssertionError: env section missing" := by
  induction l with
  | nil => cases hmem
  | cons p rest ih =>
    intro acc
    obtain ⟨nm, c⟩ := p
    cases hc : c.env with
    | none => simp [envMutationsLoop, hc]
    | some pe =>
      simp only [envMutationsLoop, hc]
      rcases List.mem_cons.mp hmem with heq | hmem'
      · exfalso
        have : cfg = c := congrArg Prod.snd heq
        rw [this, hc] at henv
        cases henv
      · exact ih hmem' _

/-- Required names whose loop iteration continues (skipped or passed)
do not affect the verification of the remaining names. -/
theorem checkRequiredPackages_append_of_passing (isDir : String → Bool)
    (res : Resources) (installed : List (String × PackageInfo))
    (l1 l2 : List String)
    (h : ∀ n ∈ l1, checkPackagesStep isDir res installed n = none) :
    checkRequiredPackages isDir (l1 ++ l2) res installed
      = checkRequiredPackages isDir l2 res installed := by
  induction l1 with
  | nil => rfl
  | cons a rest ih =>
    have ha := h a (List.mem_cons_self a rest)
    simp only [List.cons_append, checkRequiredPackages, ha]
    exact ih fun n hn => h n (List.mem_cons_of_mem a hn)

/-- When PATH is present, `_apply_env_mutations` prepends the
collected paths to it (in collected order) and then applies the vars
assignments. -/
theorem applyEnvMutations_ok (sep : String) (m : EnvMutations)
    (env : Env) (orig : String) (hpath : envGet env "PATH" = some orig) :
    applyEnvMutations sep m env = .ok (applyVars m.vars
      (envSet env "PATH" (String.intercalate sep (m.paths ++ [orig])))) := by
  simp [applyEnvMutations, hpath]

/-- When PATH is absent, `_apply_env_mutations` raises `KeyError`
before performing any mutation. -/
theorem applyEnvMutations_keyError (sep : String) (m : EnvMutations)
    (env : Env) (hpath : envGet env "PATH" = none) :
    applyEnvMutations sep m env = .error "KeyError: PATH" := by
  simp [applyEnvMutations, hpath]

/-- Reduction of `set_env_for_packages` once the mutations are
collected successfully: skip when the flag is set, otherwise apply
and set the flag. -/
theorem setEnvForPackages_eq (sep : String) (res : Resources)
    (s : PState) (m : EnvMutations)
    (hm : getEnvMutationsForPackages res = .ok m) :
    setEnvForPackages sep res s =
      if s.envAlreadySetFlag then .ok s
      else
        match applyEnvMutations sep m s.env with
        | .error e => .error (e, s)
        | .ok env' => .ok { env := env', envAlreadySetFlag := true } := by
  simp [setEnvForPackages, hm]

/-! ## Claims -/

/-- C1 (counterexample): the claim states that composing and applying
yields a final PATH equal to `reverse(concat(p1.paths, ..., pn.paths))`
followed by the original PATH.  On the registry `resTwoPaths`
(`p1` contributing `dirA`, `p2` contributing `dirB`) with original
PATH `/usr/bin`, the code yields `dirA:dirB:/usr/bin`, which is not
the claimed `dirB:dirA:/usr/bin`. -/
theorem c1_counterexample :
    getEnvMutationsForPackages resTwoPaths
      = .ok { paths := ["dirA", "dirB"], vars := [] } ∧
    applyEnvMutations ":" { paths := ["dirA", "dirB"], vars := [] }
        [("PATH", "/usr/bin")]
      = .ok [("PATH", "dirA:dirB:/usr/bin")] ∧
    envGet [("PATH", "dirA:dirB:/usr/bin")] "PATH"
      ≠ some (String.intercalate ":"
          (List.reverse (collectedPaths resTwoPaths.platform_packages)
            ++ ["/usr/bin"])) :=
  ⟨by decide, by decide, by decide⟩

/-- C1 (amended): for every registry whose composition succeeds,
applying the composed mutations to an environment with original PATH
`orig` yields a final PATH equal to
`concat(p1.paths, ..., pn.paths)` — the registry-order concatenation,
NOT reversed — followed by the original PATH, so the first-registered
package's path entries end up first (highest priority).  (The vars
mutations are assumed not to assign the variable `PATH` itself.) -/
theorem c1_path_order (sep : String) (res : Resources)
    (m : EnvMutations) (env env' : Env) (orig : String)
    (hm : getEnvMutationsForPackages res = .ok m)
    (hpath : envGet env "PATH" = some orig)
    (hv : "PATH" ∉ m.vars.map Prod.fst)
    (ha : applyEnvMutations sep m env = .ok env') :
    envGet env' "PATH" = some (String.intercalate sep
      (collectedPaths res.platform_packages ++ [orig])) := by
  rw [applyEnvMutations_ok sep m env orig hpath] at ha
  injection ha with ha
  subst ha
  rw [envGet_applyVars_of_notMem _ _ _ hv, envGet_envSet_self]
  have hp := envMutationsLoop_paths res.platform_packages
    { paths := [], vars := [] } m hm
  simp only [List.nil_append] at hp
  rw [hp]

/-- Witness for C1 (amended) on the registry `resTwoPaths`. -/
theorem c1_path_order_witness :
    applyEnvMutations ":" { paths := ["dirA", "dirB"], vars := [] }
        [("PATH", "/usr/bin")] = .ok [("PATH", "dirA:dirB:/usr/bin")] ∧
    envGet [("PATH", "dirA:dirB:/usr/bin")] "PATH"
      = some (String.intercalate ":"
          (collectedPaths resTwoPaths.platform_packages ++ ["/usr/bin"])) :=
  ⟨by decide,
    c1_path_order ":" resTwoPaths { paths := ["dirA", "dirB"], vars := [] }
      [("PATH", "/usr/bin")] [("PATH", "dirA:dirB:/usr/bin")] "/usr/bin"
      (by decide) (by decide) (by decide) (by decide)⟩

/-- C3: the ambient environment is mutated by `set_env_for_packages`
at most once per process: after a successful call, a later call
returns the very same process state (environment and flag unchanged),
so calling the entry point twice produces a PATH identical to calling
it once. -/
theorem c3_env_set_at_most_once (sep : String) (res : Resources)
    (s s1 : PState) (h : setEnvForPackages sep res s = .ok s1) :
    setEnvForPackages sep res s1 = .ok s1 := by
  cases hm : getEnvMutationsForPackages res with
  | error e =>
    rw [setEnvForPackages, hm] at h
    cases h
  | ok m =>
    rw [setEnvForPackages_eq sep res s m hm] at h
    rw [setEnvForPackages_eq sep res s1 m hm]
    by_cases hf : s.envAlreadySetFlag
    · rw [if_pos hf] at h
      injection h with h
      subst h
      rw [if_pos hf]
    · rw [if_neg hf] at h
      cases ha : applyEnvMutations sep m s.env with
      | error e => rw [ha] at h; cases h
      | ok env2 =>
        rw [ha] at h
        injection h with h
        subst h
        rfl

/-- Witness for C3 on the registry `resTwoPaths`. -/
theorem c3_env_set_at_most_once_witness :
    setEnvForPackages ":" resTwoPaths
        { env := [("PATH", "/usr/bin")], envAlreadySetFlag := false }
      = .ok { env := [("PATH", "dirA:dirB:/usr/bin")],
              envAlreadySetFlag := true } ∧
    setEnvForPackages ":" resTwoPaths
        { env := [("PATH", "dirA:dirB:/usr/bin")],
          envAlreadySetFlag := true }
      = .ok { env := [("PATH", "dirA:dirB:/usr/bin")],
              envAlreadySetFlag := true } :=
  ⟨by decide,
    c3_env_set_at_most_once ":" resTwoPaths
      { env := [("PATH", "/usr/bin")], envAlreadySetFlag := false }
      { env := [("PATH", "dirA:dirB:/usr/bin")], envAlreadySetFlag := true }
      (by decide)⟩

/-- C7: if any platform package's config lacks the `env` section,
composition aborts with the (fatal) assertion error and produces no
`EnvMutations` value. -/
theorem c7_missing_env_aborts (res : Resources) (name : String)
    (cfg : PackageConfig) (hmem : (name, cfg) ∈ res.platform_packages)
    (henv : cfg.env = none) :
    getEnvMutationsForPackages res
      = .error "AssertionError: env section missing" :=
  envMutationsLoop_error_of_missing res.platform_packages name cfg
    hmem henv { paths := [], vars := [] }

/-- Witness for C7 on the registry `resMissingEnv`. -/
theorem c7_missing_env_aborts_witness :
    getEnvMutationsForPackages resMissingEnv
      = .error "AssertionError: env section missing" :=
  c7_missing_env_aborts resMissingEnv "broken" { env := none }
    (by decide) rfl

/-- C8: when the collected vars mutations contain an assignment of
`x` to `v1` and, later, an assignment of `x` to `v2` with no further
assignment of `x` after it (two packages declaring the same variable,
the later-registered one last), the applied environment holds `v2`
for `x`: the later-declared package wins. -/
theorem c8_later_var_wins (sep : String) (m : EnvMutations)
    (env env' : Env) (l1 l2 l3 : List (String × String))
    (x v1 v2 : String)
    (hv : m.vars = l1 ++ (x, v1) :: l2 ++ (x, v2) :: l3)
    (_hne : v1 ≠ v2) (h3 : x ∉ l3.map Prod.fst)
    (ha : applyEnvMutations sep m env = .ok env') :
    envGet env' x = some v2 := by
  obtain ⟨orig, hpath⟩ : ∃ orig, envGet env "PATH" = some orig := by
    cases hp : envGet env "PATH" with
    | none => rw [applyEnvMutations_keyError sep m env hp] at ha; cases ha
    | some o => exact ⟨o, rfl⟩
  rw [applyEnvMutations_ok sep m env orig hpath] at ha
  injection ha with ha
  subst ha
  rw [hv]
  have hsplit : l1 ++ (x, v1) :: l2 ++ (x, v2) :: l3
      = (l1 ++ (x, v1) :: l2) ++ (x, v2) :: l3 := by simp
  rw [hsplit, applyVars_append]
  exact envGet_applyVars_last l3 _ x v2 h3

/-- Witness for C8 on the registry `resVarOverride` (`p1` declares
`X=one`, `p2` declares `X=two`). -/
theorem c8_later_var_wins_witness :
    getEnvMutationsForPackages resVarOverride
      = .ok { paths := [], vars := [("X", "one"), ("X", "two")] } ∧
    applyEnvMutations ":" { paths := [], vars := [("X", "one"), ("X", "two")] }
        [("PATH", "/usr/bin")]
      = .ok [("PATH", "/usr/bin"), ("X", "two")] ∧
    envGet [("PATH", "/usr/bin"), ("X", "two")] "X" = some "two" :=
  ⟨by decide, by decide,
    c8_later_var_wins ":" { paths := [], vars := [("X", "one"), ("X", "two")] }
      [("PATH", "/usr/bin")] [("PATH", "/usr/bin"), ("X", "two")]
      [] [] [] "X" "one" "two" rfl (by decide) (by decide) (by decide)⟩

/-- C10: the applied-once flag is set only after
`_apply_env_mutations` returns successfully.  When PATH is absent
from the ambient environment, `set_env_for_packages` propagates the
`KeyError` with the process state unchanged (the flag remains false
and the environment untouched), and a subsequent call with the flag
still false attempts the application again (and succeeds once PATH
is present). -/
theorem c10_flag_only_after_success (sep : String) (res : Resources)
    (m : EnvMutations) (env : Env)
    (hm : getEnvMutationsForPackages res = .ok m)
    (hp : envGet env "PATH" = none) :
    setEnvForPackages sep res { env := env, envAlreadySetFlag := false }
      = .error ("KeyError: PATH",
          { env := env, envAlreadySetFlag := false }) ∧
    (∀ env2 orig, envGet env2 "PATH" = some orig →
      setEnvForPackages sep res
          { env := env2, envAlreadySetFlag := false }
        = .ok { env := applyVars m.vars (envSet env2 "PATH"
                  (String.intercalate sep (m.paths ++ [orig]))),
                envAlreadySetFlag := true }) := by
  constructor
  · rw [setEnvForPackages_eq sep res _ m hm]
    simp only [Bool.false_eq_true, if_false]
    rw [applyEnvMutations_keyError sep m env hp]
  · intro env2 orig h2
    rw [setEnvForPackages_eq sep res _ m hm]
    simp only [Bool.false_eq_true, if_false]
    rw [applyEnvMutations_ok sep m env2 orig h2]

/-- Witness for C10 on the registry `resTwoPaths`: a PATH-less
environment fails with the state intact; a retry with PATH present
applies the mutations. -/
theorem c10_flag_only_after_success_witness :
    setEnvForPackages ":" resTwoPaths
        { env := [("HOME", "/home/u")], envAlreadySetFlag := false }
      = .error ("KeyError: PATH",
          { env := [("HOME", "/home/u")], envAlreadySetFlag := false }) ∧
    setEnvForPackages ":" resTwoPaths
        { env := [("PATH", "/usr/bin")], envAlreadySetFlag := false }
      = .ok { env := applyVars [] (envSet [("PATH", "/usr/bin")] "PATH"
                (String.intercalate ":" (["dirA", "dirB"] ++ ["/usr/bin"]))),
              envAlreadySetFlag := true } :=
  ⟨(c10_flag_only_after_success ":" resTwoPaths
      { paths := ["dirA", "dirB"], vars := [] } [("HOME", "/home/u")]
      (by decide) (by decide)).1,
   (c10_flag_only_after_success ":" resTwoPaths
      { paths := ["dirA", "dirB"], vars := [] } [("HOME", "/home/u")]
      (by decide) (by decide)).2 [("PATH", "/usr/bin")] "/usr/bin"
      (by decide)⟩

/-- C2: the registry encodes the empty string as the default
constraint (`spec_packages.get(package_name, "")`), but checking an
installed package under the empty constraint does NOT treat it as
"no constraint": `semantic_version.SimpleSpec("")` raises
`ValueError`, which `_version_matches` does not catch, so the check
raises instead of succeeding.  This theorem evaluates the verifier at
the failing input: package `pkg` known and platform-applicable,
installed at version `1.0.0`, absent from the distribution constraint
mapping. -/
theorem c2_empty_constraint_raises :
    checkRequiredPackages (fun _ => true) ["pkg"] resEmptyConstraint
        [("pkg", { version := some "1.0.0" })]
      = .valueError "ValueError: invalid simple block" ∧
    simpleSpecParse "" = none :=
  ⟨by decide, by decide⟩

/-- C4: verification is fail-fast.  If every required name before
`bad` lets the loop continue (skipped, or its check passed) and `bad`
fails a user-level check (printing its error and the remediation hint
before `sys.exit(1)`), the whole call stops with exactly `bad`'s user
error, whatever required names follow — later violations are never
checked or reported. -/
theorem c4_fail_fast (isDir : String → Bool) (res : Resources)
    (installed : List (String × PackageInfo)) (l1 l2 : List String)
    (bad : String) (kind : UserErrorKind)
    (h1 : ∀ n ∈ l1, checkPackagesStep isDir res installed n = none)
    (hbad : checkPackagesStep isDir res installed bad
      = some (.userError bad kind)) :
    checkRequiredPackages isDir (l1 ++ bad :: l2) res installed
      = .userError bad kind := by
  rw [checkRequiredPackages_append_of_passing isDir res installed l1 _ h1]
  rw [checkRequiredPackages, hbad]

/-- Witness for C4: both `a` and `b` are required and neither is
installed; only `a`'s `NotInstalled` error is reported. -/
theorem c4_fail_fast_witness :
    checkPackagesStep (fun _ => true) resTwoRequired [] "a"
      = some (.userError "a" .notInstalled) ∧
    checkRequiredPackages (fun _ => true) ["a", "b"] resTwoRequired []
      = .userError "a" .notInstalled :=
  ⟨by decide,
    c4_fail_fast (fun _ => true) resTwoRequired [] [] ["b"] "a"
      .notInstalled (by simp) (by decide)⟩

/-- C5: a required name absent from the full known-package catalog
makes `check_required_packages` raise the fatal `RuntimeError` — a
failure kind distinct from the three user-error outcomes — once the
names before it have let the loop continue; it is never disguised as
a user error. -/
theorem c5_unknown_name_internal_error (isDir : String → Bool)
    (res : Resources) (installed : List (String × PackageInfo))
    (l1 l2 : List String) (bad : String)
    (h1 : ∀ n ∈ l1, checkPackagesStep isDir res installed n = none)
    (hbad : bad ∉ res.all_packages) :
    checkRequiredPackages isDir (l1 ++ bad :: l2) res installed
      = .runtimeError ("Unknown package named [" ++ bad ++ "]") ∧
    (∀ p k, checkRequiredPackages isDir (l1 ++ bad :: l2) res installed
      ≠ .userError p k) := by
  have hstep : checkPackagesStep isDir res installed bad
      = some (.runtimeError ("Unknown package named [" ++ bad ++ "]")) := by
    simp [checkPackagesStep, hbad]
  have hres : checkRequiredPackages isDir (l1 ++ bad :: l2) res installed
      = .runtimeError ("Unknown package named [" ++ bad ++ "]") := by
    rw [checkRequiredPackages_append_of_passing isDir res installed l1 _ h1]
    rw [checkRequiredPackages, hstep]
  exact ⟨hres, fun p k => by rw [hres]; exact fun hh => by cases hh⟩

/-- Witness for C5: required list `["a", "ghost"]` where `a` is known
but skipped (not platform-applicable) and `ghost` is not in the
catalog. -/
theorem c5_unknown_name_internal_error_witness :
    checkRequiredPackages (fun _ => true) ["a", "ghost"] resSkipOnly []
      = .runtimeError "Unknown package named [ghost]" ∧
    checkRequiredPackages (fun _ => true) ["a", "ghost"] resSkipOnly []
      ≠ .userError "ghost" .notInstalled :=
  ⟨(c5_unknown_name_internal_error (fun _ => true) resSkipOnly []
      ["a"] [] "ghost"
      (fun n hn => by rw [List.mem_singleton] at hn; subst hn; decide)
      (by decide)).1,
   (c5_unknown_name_internal_error (fun _ => true) resSkipOnly []
      ["a"] [] "ghost"
      (fun n hn => by rw [List.mem_singleton] at hn; subst hn; decide)
      (by decide)).2 "ghost" .notInstalled⟩

/-- C6: an installed-version string that fails to parse as a
semantic version, checked against a constraint that parses, yields
the `VersionMismatch` user error — the malformed version does not
satisfy the constraint and no exception escapes the check. -/
theorem c6_malformed_version_is_mismatch (isDir : String → Bool)
    (res : Resources) (name v c : String) (spec : SimpleSpec)
    (hv : semverParse v = none) (hc : simpleSpecParse c = some spec) :
    checkRequiredPackage isDir name (some v) c res
      = .userError name (.versionMismatch v c) := by
  simp [checkRequiredPackage, versionMatches, hc, hv]

/-- Witness for C6: `not-a-version` against `>=0.0.1`. -/
theorem c6_malformed_version_is_mismatch_witness :
    semverParse "not-a-version" = none ∧
    checkRequiredPackage (fun _ => true) "pkg" (some "not-a-version")
        ">=0.0.1" resDirCheck
      = .userError "pkg" (.versionMismatch "not-a-version" ">=0.0.1") :=
  ⟨by decide,
    c6_malformed_version_is_mismatch (fun _ => true) resDirCheck "pkg"
      "not-a-version" ">=0.0.1"
      { clauses := [.cmp .ge { major := 0, minor := 0, patch := 1,
                               prerelease := [] }] }
      (by decide) (by decide)⟩

/-- C9: when the installed version satisfies the constraint, the
single-package check reports `DirectoryMissing` exactly when the
package-directory lookup returns a path that is not a directory on
disk; when the lookup returns no directory the check is skipped, and
otherwise the outcome is `ok` (no output, no side effect). -/
theorem c9_directory_check (isDir : String → Bool) (res : Resources)
    (name v c : String) (hm : versionMatches v c = .ok true) :
    (checkRequiredPackage isDir name (some v) c res
        = .userError name .directoryMissing
      ↔ ∃ d, res.get_package_dir name = some d ∧ isDir d = false) ∧
    (res.get_package_dir name = none →
      checkRequiredPackage isDir name (some v) c res = .ok) ∧
    (∀ d, res.get_package_dir name = some d → isDir d = true →
      checkRequiredPackage isDir name (some v) c res = .ok) := by
  refine ⟨?_, ?_, ?_⟩
  · cases hd : res.get_package_dir name with
    | none => simp [checkRequiredPackage, hm, hd]
    | some d =>
      cases hi : isDir d with
      | false => simp [checkRequiredPackage, hm, hd, hi]
      | true => simp [checkRequiredPackage, hm, hd, hi]
  · intro hd
    simp [checkRequiredPackage, hm, hd]
  · intro d hd hi
    simp [checkRequiredPackage, hm, hd, hi]

/-- Witness for C9: `1.2.3` satisfies `>=1.0.0` and the resolved
directory exists, so the check passes. -/
theorem c9_directory_check_witness :
    versionMatches "1.2.3" ">=1.0.0" = .ok true ∧
    checkRequiredPackage (fun _ => true) "pkg" (some "1.2.3") ">=1.0.0"
        resDirCheck
      = .ok :=
  ⟨by decide,
    (c9_directory_check (fun _ => true) resDirCheck "pkg" "1.2.3"
        ">=1.0.0" (by decide)).2.2 "/packages/pkg" (by decide) rfl⟩

end Apio
